import Mathlib

/-
Verification of the hp-adaptivity control loops of the hermes-examples
driver programs.

The adaptivity loops of the example drivers are embedded shallowly:
the control flow of each `main` loop is translated statement by
statement, while the external Hermes library collaborators (mesh
refinement, Newton solver, orthogonal projection, error calculation,
the Adapt processor) are abstracted as fields of an environment record
that the loop consumes.  Rational numbers stand in for the
double-precision error quantities; handles for meshes, spaces and
solutions are natural numbers.
-/

/-- Modelled from the spec: the state of the Hermes `DefaultErrorCalculator`
(library code, not part of this repository) after a call to
`calculate_errors` with `RelativeErrorToGlobalNorm`: the per-element squared
errors and the per-element squared norms of the reference argument. -/
structure ErrCalcState where
  errsSq : List ℚ
  normsSq : List ℚ
deriving DecidableEq

/-- Modelled from the spec: the Hermes library accessor
`ErrorCalculator::get_total_error_squared`, whose contract in the spec is
`calculate_errors(...) -> per_element_errors, total_error_squared`: the sum
of the squared per-element errors normalized by the global squared norm of
the reference solution (`RelativeErrorToGlobalNorm`). -/
def get_total_error_squared (st : ErrCalcState) : ℚ :=
  st.errsSq.sum / st.normsSq.sum

/-- The relative-error percentage the example drivers report and test, as
computed in the sources: `errorCalculator.get_total_error_squared() * 100`
(e.g. 1d/layer-boundary/main.cpp:160-162, 2d-benchmarks-general/lshape/
main.cpp:130-134). -/
def reported_rel_error (st : ErrCalcState) : ℚ :=
  get_total_error_squared st * 100

/-- `ERR_STOP` of 1d/layer-boundary/main.cpp (1e-3). -/
def lb_ERR_STOP : ℚ := 1 / 1000

/-- `NDOF_STOP` of 1d/layer-boundary/main.cpp. -/
def lb_NDOF_STOP : ℕ := 1000

/-- `ERR_STOP` of 2d-benchmarks-general/lshape/main.cpp (1e-4). -/
def lshape_ERR_STOP : ℚ := 1 / 10000

/-- Environment of the single-component benchmark adaptivity loops
(1d/layer-boundary and 2d-benchmarks-general/lshape): the Hermes library
collaborators the loop body calls, abstracted as functions on handles. -/
structure AdaptEnv where
  create_ref_space : ℕ → ℕ
  solve : ℕ → Option ℕ
  project_global : ℕ → ℕ → ℕ
  calculate_errors : ℕ → ℕ → ErrCalcState
  exact_sln : ℕ
  get_num_dofs : ℕ → ℕ
  adapt : ℕ → ErrCalcState → Bool × ℕ

/-- Loop state of the benchmark adaptivity loops: the coarse space handle
and the adaptivity step counter `as`. -/
structure AdaptState where
  space : ℕ
  as : ℕ
deriving DecidableEq

/-- Observable result of one adaptivity step of the benchmark loops:
the `done` flag, the successor state, and the two reported errors. -/
structure AdaptStepOut where
  done : Bool
  state : AdaptState
  err_exact_rel : ℚ
  err_est_rel : ℚ
deriving DecidableEq

/-- Coarse-mesh solution of one step:
`OGProjection::project_global(space, ref_sln, sln)`. -/
def coarse_sln (env : AdaptEnv) (s : AdaptState) (refSln : ℕ) : ℕ :=
  env.project_global s.space refSln

/-- `err_exact_rel` of one step: `calculate_errors(sln, exact_sln, false)`
followed by `get_total_error_squared() * 100`. -/
def err_exact_rel (env : AdaptEnv) (s : AdaptState) (refSln : ℕ) : ℚ :=
  reported_rel_error (env.calculate_errors (coarse_sln env s refSln) env.exact_sln)

/-- Error-calculator state after the second call
`calculate_errors(sln, ref_sln)`; this is the state the `Adapt` processor
consumes, since the second call overwrites the first. -/
def err_est_state (env : AdaptEnv) (s : AdaptState) (refSln : ℕ) : ErrCalcState :=
  env.calculate_errors (coarse_sln env s refSln) refSln

/-- `err_est_rel` of one step: `get_total_error_squared() * 100` after the
coarse-vs-reference call. -/
def err_est_rel (env : AdaptEnv) (s : AdaptState) (refSln : ℕ) : ℚ :=
  reported_rel_error (err_est_state env s refSln)

/-- The `adaptivity.adapt(&selector)` call of one step: it consumes the
coarse space and the error-calculator state left by the last
`calculate_errors` call (the coarse-vs-reference estimate). -/
def adapt_call (env : AdaptEnv) (s : AdaptState) (refSln : ℕ) : Bool × ℕ :=
  env.adapt s.space (err_est_state env s refSln)

/-- One step of the 1d/layer-boundary adaptivity loop
(1d/layer-boundary/main.cpp:110-206): build the reference space, solve on
it (a Newton failure is rethrown as a fatal exception), project, compute
`err_exact_rel` and `err_est_rel`, then the stop check of lines 195-198:
`if (err_exact_rel < ERR_STOP || space->get_num_dofs() >= NDOF_STOP)
done = true; else done = adaptivity.adapt(&selector);`, and `as` is
incremented only when not done (lines 204-205). -/
def lbStep (env : AdaptEnv) (s : AdaptState) : Except String AdaptStepOut :=
  match env.solve (env.create_ref_space s.space) with
  | none => Except.error "Newton iteration failed"
  | some refSln =>
    if err_exact_rel env s refSln < lb_ERR_STOP ∨
        lb_NDOF_STOP ≤ env.get_num_dofs s.space then
      Except.ok ⟨true, s, err_exact_rel env s refSln, err_est_rel env s refSln⟩
    else
      Except.ok ⟨(adapt_call env s refSln).1,
        ⟨(adapt_call env s refSln).2,
          if (adapt_call env s refSln).1 then s.as else s.as + 1⟩,
        err_exact_rel env s refSln, err_est_rel env s refSln⟩

/-- One step of the lshape adaptivity loop
(2d-benchmarks-general/lshape/main.cpp:85-176).  Identical to the
layer-boundary step except for the stop check of lines 165-168, which
tests only `err_exact_rel < ERR_STOP`: there is no DOF ceiling and no
iteration ceiling in this driver. -/
def lshapeStep (env : AdaptEnv) (s : AdaptState) : Except String AdaptStepOut :=
  match env.solve (env.create_ref_space s.space) with
  | none => Except.error "Newton iteration failed"
  | some refSln =>
    if err_exact_rel env s refSln < lshape_ERR_STOP then
      Except.ok ⟨true, s, err_exact_rel env s refSln, err_est_rel env s refSln⟩
    else
      Except.ok ⟨(adapt_call env s refSln).1,
        ⟨(adapt_call env s refSln).2,
          if (adapt_call env s refSln).1 then s.as else s.as + 1⟩,
        err_exact_rel env s refSln, err_est_rel env s refSln⟩

/-- The layer-boundary do-while loop with a fuel bound: each unit of fuel
is one iteration; the loop exits as soon as a step reports done, and a
solver failure aborts the whole run. -/
def lbRun (env : AdaptEnv) : ℕ → AdaptState → Except String (Bool × AdaptState)
  | 0, s => Except.ok (false, s)
  | n + 1, s =>
    match lbStep env s with
    | Except.error msg => Except.error msg
    | Except.ok out => if out.done then Except.ok (true, out.state) else lbRun env n out.state

/-- The lshape do-while loop with a fuel bound. -/
def lshapeRun (env : AdaptEnv) : ℕ → AdaptState → Except String (Bool × AdaptState)
  | 0, s => Except.ok (false, s)
  | n + 1, s =>
    match lshapeStep env s with
    | Except.error msg => Except.error msg
    | Except.ok out => if out.done then Except.ok (true, out.state) else lshapeRun env n out.state

/-- Concrete environment for the layer-boundary stop check: the
coarse-vs-exact comparison reports squared error 1 (100 percent), the
coarse-vs-reference comparison reports 0, the coarse space has 3 DOFs,
and the selector-driven `adapt` keeps refining (returns false). -/
def lbCexEnv : AdaptEnv where
  create_ref_space := fun sp => sp
  solve := fun _ => some 9
  project_global := fun _ _ => 0
  calculate_errors := fun _ other => if other = 5 then ⟨[1], [1]⟩ else ⟨[0], [1]⟩
  exact_sln := 5
  get_num_dofs := fun _ => 3
  adapt := fun sp _ => (false, sp)

/-- Claim C2, counterexample: at the stop check of 1d/layer-boundary with
the error estimate `err_est_rel = 0 < ERR_STOP` (the first condition of the
claim) and the step counter already at 50, the loop is not declared done,
because the code tests the exact error `err_exact_rel` (here 100) instead
of the estimate and has no iteration-ceiling condition at all. -/
theorem lb_stop_check_cex :
    lbStep lbCexEnv ⟨0, 50⟩ = Except.ok ⟨false, ⟨0, 51⟩, 100, 0⟩ ∧
    (0 : ℚ) < lb_ERR_STOP := by
  constructor
  · norm_num [lbStep, lbCexEnv, err_exact_rel, err_est_rel, err_est_state, adapt_call,
      coarse_sln, reported_rel_error, get_total_error_squared, lb_ERR_STOP, lb_NDOF_STOP]
  · norm_num [lb_ERR_STOP]

/-- Claim C3, as amended: the refinement selection of a benchmark
adaptivity step is driven solely by the coarse-vs-reference error
estimate.  Replacing the exact solution the driver compares against
changes neither the `adaptivity.adapt(&selector)` call (space and
error table consumed) nor the reported `err_est_rel`, because the
second `calculate_errors(sln, ref_sln)` call overwrites the calculator
state before `adapt` reads it. -/
theorem adapt_call_ignores_exact_solution (env : AdaptEnv) (e : ℕ) (s : AdaptState) (refSln : ℕ) :
    adapt_call { env with exact_sln := e } s refSln = adapt_call env s refSln ∧
    err_est_rel { env with exact_sln := e } s refSln = err_est_rel env s refSln :=
  ⟨rfl, rfl⟩

/-- Concrete environment for the lshape stop check: the coarse-vs-exact
comparison reports zero error only for the exact-solution handle 5, while
the coarse-vs-reference estimate is 100 percent. -/
def lshapeCexEnv : AdaptEnv where
  create_ref_space := fun sp => sp
  solve := fun _ => some 9
  project_global := fun _ _ => 0
  calculate_errors := fun _ other => if other = 5 then ⟨[0], [1]⟩ else ⟨[1], [1]⟩
  exact_sln := 5
  get_num_dofs := fun _ => 3
  adapt := fun sp _ => (false, sp)

/-- Claim C3, counterexample: the lshape stop decision depends on the exact
error.  Two environments that differ only in the exact solution handle
(5 versus 4) produce opposite `done` flags at the same state, with the
coarse-vs-reference estimate (100 percent) identical in both runs: the
first run stops because `err_exact_rel = 0 < ERR_STOP` even though the
estimate is far above `ERR_STOP`. -/
theorem lshape_stop_depends_on_exact :
    lshapeStep lshapeCexEnv ⟨0, 1⟩ = Except.ok ⟨true, ⟨0, 1⟩, 0, 100⟩ ∧
    lshapeStep { lshapeCexEnv with exact_sln := 4 } ⟨0, 1⟩ =
      Except.ok ⟨false, ⟨0, 2⟩, 100, 100⟩ := by
  constructor
  · norm_num [lshapeStep, lshapeCexEnv, err_exact_rel, err_est_rel, err_est_state, adapt_call,
      coarse_sln, reported_rel_error, get_total_error_squared, lshape_ERR_STOP]
  · norm_num [lshapeStep, lshapeCexEnv, err_exact_rel, err_est_rel, err_est_state, adapt_call,
      coarse_sln, reported_rel_error, get_total_error_squared, lshape_ERR_STOP]

/-- Adverse environment for the lshape loop: the error never drops below
`ERR_STOP` (every comparison reports 100 percent) and the `Adapt`
processor always finds elements to refine (returns false), as happens on
a problem whose error stagnates. -/
def lshapeAdverseEnv : AdaptEnv where
  create_ref_space := fun sp => sp
  solve := fun _ => some 0
  project_global := fun _ _ => 0
  calculate_errors := fun _ _ => ⟨[1], [1]⟩
  exact_sln := 0
  get_num_dofs := fun _ => 0
  adapt := fun sp _ => (false, sp)

/-- Under the adverse environment every lshape step leaves the space
unchanged, increments `as`, and reports not done. -/
theorem lshapeStep_adverse (k : ℕ) :
    lshapeStep lshapeAdverseEnv ⟨0, k⟩ = Except.ok ⟨false, ⟨0, k + 1⟩, 100, 100⟩ := by
  norm_num [lshapeStep, lshapeAdverseEnv, err_exact_rel, err_est_rel, err_est_state, adapt_call,
    coarse_sln, reported_rel_error, get_total_error_squared, lshape_ERR_STOP]

/-- Under the adverse environment the lshape loop never reports done,
whatever its fuel. -/
theorem lshapeRun_adverse (n k : ℕ) :
    lshapeRun lshapeAdverseEnv n ⟨0, k⟩ = Except.ok (false, ⟨0, k + n⟩) := by
  induction n generalizing k with
  | zero => simp [lshapeRun]
  | succ n ih =>
    rw [lshapeRun, lshapeStep_adverse k]
    simp only [ih (k + 1)]
    norm_num
    omega

/-- Claim C1, counterexample: the lshape adaptivity loop
(2d-benchmarks-general/lshape/main.cpp:163-176) is not terminated within
any bounded number of steps for every configuration: its stop check has no
DOF-ceiling and no iteration-ceiling condition, so under the adverse
environment (error stagnating at 100 percent) no number of iterations ever
reaches the done state. -/
theorem lshape_unbounded_cex :
    ¬ ∃ (n : ℕ) (s : AdaptState),
        lshapeRun lshapeAdverseEnv n ⟨0, 1⟩ = Except.ok (true, s) := by
  rintro ⟨n, s, h⟩
  rw [lshapeRun_adverse n 1] at h
  simp at h

/-- `ERR_STOP` of 2d-advanced/neutronics/4-group-adapt/main.cpp (0.5). -/
def fg_ERR_STOP : ℚ := 1 / 2

/-- `MAX_ADAPT_NUM` of 2d-advanced/neutronics/4-group-adapt/main.cpp. -/
def fg_MAX_ADAPT_NUM : ℕ := 30

/-- `NDOF_STOP` of 2d-advanced/neutronics/4-group-adapt/main.cpp. -/
def fg_NDOF_STOP : ℕ := 100000

/-- Environment of the 4-group-adapt adaptivity loop: the Hermes library
collaborators of 2d-advanced/neutronics/4-group-adapt/main.cpp:236-377.
`coarse_solutions` is a constant handle because the projection of the fine
solutions onto the coarse meshes is commented out in the source
(lines 282-284), so the loop never updates them. -/
structure FGEnv where
  create_ref_spaces : ℕ → ℕ
  power_iterate : ℕ → ℕ
  calc_h1 : ℕ → ℕ → ErrCalcState
  calc_l2 : ℕ → ℕ → ErrCalcState
  adapt_h1 : ℕ → ErrCalcState → Bool × ℕ
  get_num_dofs : ℕ → ℕ
  coarse_solutions : ℕ

/-- Loop state of the 4-group-adapt loop: the handle of the four coarse
spaces and the step counter `as`. -/
structure FGState where
  spaces : ℕ
  as : ℕ
deriving DecidableEq

/-- Observable result of one 4-group-adapt step. -/
structure FGStepOut where
  done : Bool
  state : FGState
  l2_err_est : ℚ
deriving DecidableEq

/-- Fine solutions of one 4-group-adapt step: the power iteration on the
globally refined reference spaces (main.cpp:240-275). -/
def fg_fine_solutions (env : FGEnv) (s : FGState) : ℕ :=
  env.power_iterate (env.create_ref_spaces s.spaces)

/-- `l2_err_est` of one step: `L2errorCalculator.get_total_error_squared()
* 100.` (main.cpp:326). -/
def fg_l2_err_est (env : FGEnv) (s : FGState) : ℚ :=
  reported_rel_error (env.calc_l2 env.coarse_solutions (fg_fine_solutions env s))

/-- The `adapt_h1.adapt(selectors)` call of one step, consuming the H1
error tables (main.cpp:368). -/
def fg_adapt_call (env : FGEnv) (s : FGState) : Bool × ℕ :=
  env.adapt_h1 s.spaces (env.calc_h1 env.coarse_solutions (fg_fine_solutions env s))

/-- One step of the 4-group-adapt adaptivity loop, stop logic of
main.cpp:361-376: `if (l2_err_est < ERR_STOP) done = true; else { done =
adapt_h1.adapt(selectors); if (ndof_after >= NDOF_STOP) done = true; }
as++; if (as >= MAX_ADAPT_NUM) done = true;`. -/
def fgStep (env : FGEnv) (s : FGState) : FGStepOut :=
  if fg_l2_err_est env s < fg_ERR_STOP then
    ⟨true, ⟨s.spaces, s.as + 1⟩, fg_l2_err_est env s⟩
  else
    ⟨(fg_adapt_call env s).1
        || decide (fg_NDOF_STOP ≤ env.get_num_dofs (fg_adapt_call env s).2)
        || decide (fg_MAX_ADAPT_NUM ≤ s.as + 1),
      ⟨(fg_adapt_call env s).2, s.as + 1⟩, fg_l2_err_est env s⟩

/-- The 4-group-adapt do-while loop with a fuel bound. -/
def fgRun (env : FGEnv) : ℕ → FGState → Bool × FGState
  | 0, s => (false, s)
  | n + 1, s =>
    if (fgStep env s).done then (true, (fgStep env s).state)
    else fgRun env n (fgStep env s).state

/-- Every 4-group-adapt step increments the step counter. -/
theorem fgStep_as (env : FGEnv) (s : FGState) : (fgStep env s).state.as = s.as + 1 := by
  unfold fgStep
  split <;> rfl

/-- A 4-group-adapt step that does not report done has not yet reached
the iteration ceiling. -/
theorem fgStep_not_done (env : FGEnv) (s : FGState) (h : (fgStep env s).done = false) :
    ¬ fg_MAX_ADAPT_NUM ≤ s.as + 1 := by
  unfold fgStep at h
  split at h
  · simp at h
  · simp only [Bool.or_eq_false_iff, decide_eq_false_iff_not] at h
    exact h.2

/-- When the remaining fuel together with the step counter passes the
iteration ceiling, the 4-group-adapt loop has reported done. -/
theorem fgRun_done (n : ℕ) : ∀ (env : FGEnv) (s : FGState),
    1 ≤ n → fg_MAX_ADAPT_NUM ≤ s.as + n → (fgRun env n s).1 = true := by
  induction n with
  | zero => intro env s h1 _; omega
  | succ n ih =>
    intro env s _ hceil
    rw [fgRun]
    by_cases hd : (fgStep env s).done
    · simp [hd]
    · simp only [hd, Bool.false_eq_true, if_false]
      have hlt : ¬ fg_MAX_ADAPT_NUM ≤ s.as + 1 :=
        fgStep_not_done env s (by simpa using hd)
      have hn1 : 1 ≤ n := by omega
      exact ih env (fgStep env s).state hn1 (by rw [fgStep_as]; omega)

/-- Claim C1, as amended: the 4-group-adapt adaptivity loop terminates
within `MAX_ADAPT_NUM` iterations for every configuration of the external
collaborators, because the step-ceiling check `if (as >= MAX_ADAPT_NUM)
done = true;` runs on every iteration regardless of the error and DOF
criteria.  (The lshape and 1d/layer-boundary loops carry no such ceiling;
see the counterexample.) -/
theorem fg_loop_terminates (env : FGEnv) (spaces : ℕ) :
    (fgRun env fg_MAX_ADAPT_NUM ⟨spaces, 1⟩).1 = true :=
  fgRun_done fg_MAX_ADAPT_NUM env ⟨spaces, 1⟩ (by norm_num [fg_MAX_ADAPT_NUM]) (by omega)

/-- Claim C2, as amended: at the stop check of a 4-group-adapt step the
loop is declared done when at least one of the three conditions holds
there: the combined L2 error estimate is below `ERR_STOP`, the total DOF
count of the (possibly just adapted) coarse spaces has reached
`NDOF_STOP`, or the incremented step counter has reached `MAX_ADAPT_NUM`.
(In 1d/layer-boundary only an error criterion, on the exact error, and
the DOF ceiling are checked; it has no iteration ceiling.) -/
theorem fg_stop_disjunction (env : FGEnv) (s : FGState)
    (h : (fgStep env s).l2_err_est < fg_ERR_STOP
      ∨ fg_NDOF_STOP ≤ env.get_num_dofs (fgStep env s).state.spaces
      ∨ fg_MAX_ADAPT_NUM ≤ s.as + 1) :
    (fgStep env s).done = true := by
  unfold fgStep at h ⊢
  by_cases hl : fg_l2_err_est env s < fg_ERR_STOP
  · simp [hl]
  · simp only [hl, if_false] at h ⊢
    rcases h with h | h | h
    · exact h.elim
    · simp only [Bool.or_eq_true, decide_eq_true_eq]
      exact Or.inl (Or.inr h)
    · simp only [Bool.or_eq_true, decide_eq_true_eq]
      exact Or.inr h

/-- Concrete 4-group-adapt environment in which the L2 estimate vanishes. -/
def fgWitnessEnv : FGEnv where
  create_ref_spaces := fun sp => sp
  power_iterate := fun sp => sp
  calc_h1 := fun _ _ => ⟨[1], [1]⟩
  calc_l2 := fun _ _ => ⟨[0], [1]⟩
  adapt_h1 := fun sp _ => (false, sp)
  get_num_dofs := fun _ => 12
  coarse_solutions := 0

/-- Claim C2, witness: the amended stop-check theorem applied to a
concrete environment whose L2 estimate is below `ERR_STOP`. -/
theorem fg_stop_disjunction_witness : (fgStep fgWitnessEnv ⟨7, 3⟩).done = true :=
  fg_stop_disjunction fgWitnessEnv ⟨7, 3⟩
    (Or.inl (by norm_num [fgStep, fg_l2_err_est, fg_fine_solutions, fg_adapt_call, fgWitnessEnv,
      reported_rel_error, get_total_error_squared, fg_ERR_STOP]))

/-- Claim C5: when the Newton solve on the reference space fails, the
whole layer-boundary adaptivity run aborts with the propagated fatal
error (1d/layer-boundary/main.cpp:138-146 rethrows the exception), and no
further iteration of the loop executes, whatever fuel remains. -/
theorem lb_solve_failure_aborts (env : AdaptEnv) (s : AdaptState) (n : ℕ)
    (h : env.solve (env.create_ref_space s.space) = none) :
    lbRun env (n + 1) s = Except.error "Newton iteration failed" := by
  have hstep : lbStep env s = Except.error "Newton iteration failed" := by
    unfold lbStep
    rw [h]
  rw [lbRun, hstep]

/-- Environment whose Newton solver diverges on every space. -/
def lbFailEnv : AdaptEnv where
  create_ref_space := fun sp => sp
  solve := fun _ => none
  project_global := fun _ _ => 0
  calculate_errors := fun _ _ => ⟨[], []⟩
  exact_sln := 0
  get_num_dofs := fun _ => 0
  adapt := fun sp _ => (false, sp)

/-- Claim C5, witness: the abort theorem applied to the diverging
environment at a concrete state. -/
theorem lb_solve_failure_aborts_witness :
    lbRun lbFailEnv 1 ⟨0, 1⟩ = Except.error "Newton iteration failed" :=
  lb_solve_failure_aborts lbFailEnv ⟨0, 1⟩ 0 rfl

/-- Claim C4, as amended: the relative error the drivers report as a
percentage is the normalized squared total multiplied by 100 — the code
takes no square root — and that value satisfies the square-root relation
of the claim only in the degenerate cases where the normalized squared
total is 0 or 1. -/
theorem reported_error_is_squared_total (errsSq normsSq : List ℚ) :
    reported_rel_error ⟨errsSq, normsSq⟩ = 100 * (errsSq.sum / normsSq.sum) ∧
    ((reported_rel_error ⟨errsSq, normsSq⟩ / 100) ^ 2 = errsSq.sum / normsSq.sum ↔
      errsSq.sum / normsSq.sum = 0 ∨ errsSq.sum / normsSq.sum = 1) := by
  have h1 : reported_rel_error ⟨errsSq, normsSq⟩ = 100 * (errsSq.sum / normsSq.sum) := by
    unfold reported_rel_error get_total_error_squared
    ring
  refine ⟨h1, ?_⟩
  rw [h1]
  have h100 : (100 : ℚ) ≠ 0 := by norm_num
  rw [mul_div_cancel_left₀ _ h100]
  constructor
  · intro h
    have hz : errsSq.sum / normsSq.sum * (errsSq.sum / normsSq.sum - 1) = 0 := by
      rw [mul_sub, mul_one, ← pow_two, h, sub_self]
    rcases mul_eq_zero.mp hz with h0 | h1'
    · exact Or.inl h0
    · exact Or.inr (sub_eq_zero.mp h1')
  · rintro (h | h) <;> rw [h] <;> norm_num

/-- Claim C4, counterexample: with per-element squared error 1 and global
squared norm 4 the drivers report 25 percent
(`get_total_error_squared() * 100`), which does not satisfy the claimed
square-root relation; the square-rooted total would have been reported as
50 percent. -/
theorem reported_error_sqrt_cex :
    reported_rel_error ⟨[1], [4]⟩ = 25 ∧
    ¬ ((reported_rel_error ⟨[1], [4]⟩ / 100) ^ 2 = get_total_error_squared ⟨[1], [4]⟩) ∧
    ((50 : ℚ) / 100) ^ 2 = get_total_error_squared ⟨[1], [4]⟩ := by
  refine ⟨?_, ?_, ?_⟩ <;>
    norm_num [reported_rel_error, get_total_error_squared]

/-- Modelled from the spec: the DOF count of a 1D H1 space (the Hermes
`Space::get_num_dofs` bookkeeping is library code, not in this
repository).  A 1D mesh of `n` elements with polynomial orders `p_i` has
`n + 1` vertex functions and `p_i - 1` interior bubble functions per
element, hence `sum p_i + 1` basis functions, minus one DOF per Dirichlet
boundary constraint. -/
def get_num_dofs_1d (orders : List ℕ) (dirichlet : ℕ) : ℕ :=
  orders.sum + 1 - dirichlet

/-- Modelled from the spec: `Mesh::refine_all_elements` on a 1D mesh
splits every active element into two children, which inherit the parent
element's polynomial order. -/
def refine_all_elements : List ℕ → List ℕ
  | [] => []
  | p :: ps => p :: p :: refine_all_elements ps

/-- Modelled from the spec: `Space::ReferenceSpaceCreator::create_ref_space`
builds the reference space on the globally refined mesh and raises every
element's order by the order increase of 1 used by the drivers
(1d/layer-boundary/main.cpp:114-123, 4-group-adapt/main.cpp:243-253). -/
def create_ref_space_orders (orders : List ℕ) : List ℕ :=
  (refine_all_elements orders).map (· + 1)

/-- Unfolding lemma for `create_ref_space_orders` on a cons cell. -/
theorem create_ref_space_orders_cons (p : ℕ) (ps : List ℕ) :
    create_ref_space_orders (p :: ps) = (p + 1) :: (p + 1) :: create_ref_space_orders ps := rfl

/-- The reference construction doubles the order sum and adds one per
child element. -/
theorem create_ref_space_orders_sum (orders : List ℕ) :
    (create_ref_space_orders orders).sum = 2 * orders.sum + 2 * orders.length := by
  induction orders with
  | nil => rfl
  | cons p ps ih =>
    rw [create_ref_space_orders_cons, List.sum_cons, List.sum_cons, ih]
    simp [List.length_cons]
    ring

/-- Claim C6: the reference space built from a coarse space by copying
the mesh, globally refining all elements and raising the order has at
least as many degrees of freedom as the coarse space, for every order
assignment and every number of Dirichlet constraints. -/
theorem ref_space_ndof_ge_coarse (orders : List ℕ) (dirichlet : ℕ) :
    get_num_dofs_1d orders dirichlet ≤ get_num_dofs_1d (create_ref_space_orders orders) dirichlet := by
  unfold get_num_dofs_1d
  have h := create_ref_space_orders_sum orders
  omega

/-- Modelled from the spec: the refinement candidate kinds a selector can
pick for one element — no refinement, an isotropic h-split, a polynomial
degree increase, or a combined hp-refinement. -/
inductive RefinementCandidate where
  | unrefined : RefinementCandidate
  | h_iso : RefinementCandidate
  | p_inc : RefinementCandidate
  | hp : RefinementCandidate
deriving DecidableEq

/-- Modelled from the spec: applying one refinement candidate to a 1D
element of order `p` yields the element list replacing it: splits produce
two children inheriting the order, degree increases raise it by one. -/
def apply_candidate (p : ℕ) : RefinementCandidate → List ℕ
  | RefinementCandidate.unrefined => [p]
  | RefinementCandidate.h_iso => [p, p]
  | RefinementCandidate.p_inc => [p + 1]
  | RefinementCandidate.hp => [p + 1, p + 1]

/-- Modelled from the spec: `Adapt::adapt` applies the selector's top
candidate to each flagged element in place; elements without a candidate
stay unchanged. -/
def apply_refinements : List ℕ → List RefinementCandidate → List ℕ
  | [], _ => []
  | p :: ps, [] => p :: apply_refinements ps []
  | p :: ps, c :: cs => apply_candidate p c ++ apply_refinements ps cs

/-- Applying one candidate never decreases an element's contribution to
the order sum. -/
theorem apply_candidate_sum_ge (p : ℕ) (c : RefinementCandidate) :
    p ≤ (apply_candidate p c).sum := by
  cases c <;> (simp [apply_candidate]; try omega)

/-- Applying a refinement pass never decreases the order sum. -/
theorem apply_refinements_sum_ge (orders : List ℕ) (cands : List RefinementCandidate) :
    orders.sum ≤ (apply_refinements orders cands).sum := by
  induction orders generalizing cands with
  | nil => simp [apply_refinements]
  | cons p ps ih =>
    cases cands with
    | nil =>
      rw [apply_refinements, List.sum_cons, List.sum_cons]
      exact Nat.add_le_add_left (ih []) p
    | cons c cs =>
      rw [apply_refinements, List.sum_append, List.sum_cons]
      have h1 := apply_candidate_sum_ge p c
      have h2 := ih cs
      omega

/-- The space evolution along one adaptivity loop run: step `i + 1` is
obtained from step `i` by applying the candidates some selector chose for
that step. -/
def adaptivity_trajectory (init : List ℕ)
    (selector : ℕ → List ℕ → List RefinementCandidate) : ℕ → List ℕ
  | 0 => init
  | i + 1 =>
    apply_refinements (adaptivity_trajectory init selector i)
      (selector i (adaptivity_trajectory init selector i))

/-- Claim C7: within one adaptivity loop run the coarse-space DOF count
is non-decreasing across steps — applying refinement candidates only adds
DOFs, never removes them — for every initial space, selector, Dirichlet
constraint count and step index. -/
theorem dof_monotone_across_steps (init : List ℕ)
    (selector : ℕ → List ℕ → List RefinementCandidate) (dirichlet i : ℕ) :
    get_num_dofs_1d (adaptivity_trajectory init selector i) dirichlet ≤
      get_num_dofs_1d (adaptivity_trajectory init selector (i + 1)) dirichlet := by
  unfold get_num_dofs_1d
  have h := apply_refinements_sum_ge (adaptivity_trajectory init selector i)
    (selector i (adaptivity_trajectory init selector i))
  rw [adaptivity_trajectory]
  omega

/-- `ERR_STOP` of 1d/system/main.cpp (1e-1). -/
def sys_ERR_STOP : ℚ := 1 / 10

/-- Environment of the two-component 1d/system adaptivity loop
(1d/system/main.cpp:143-269): the collaborators for the coupled
u/v multimesh problem.  `calculate_errors_u` and `calculate_errors_v`
produce the per-component element error tables of the single
`errorCalculator.calculate_errors({u_sln, v_sln}, {u_ref_sln, v_ref_sln})`
call. -/
structure SysEnv where
  create_ref_spaces : ℕ → ℕ
  solve : ℕ → Option ℕ
  project_global : ℕ → ℕ → ℕ
  calculate_errors_u : ℕ → ℕ → ErrCalcState
  calculate_errors_v : ℕ → ℕ → ErrCalcState
  adapt : ℕ → ErrCalcState → Bool × ℕ

/-- Loop state of the 1d/system loop: the handle of the two coarse spaces
and the step counter. -/
structure SysState where
  spaces : ℕ
  as : ℕ
deriving DecidableEq

/-- Observable result of one 1d/system adaptivity step. -/
structure SysStepOut where
  done : Bool
  state : SysState
  err_est_rel_total : ℚ
deriving DecidableEq

/-- Modelled from the spec: with `RelativeErrorToGlobalNorm` the error
calculator combines the components into a single global norm — the
element error tables and the element norm tables of all components are
concatenated before the total is formed. -/
def combined_components (st1 st2 : ErrCalcState) : ErrCalcState :=
  ⟨st1.errsSq ++ st2.errsSq, st1.normsSq ++ st2.normsSq⟩

/-- Error-calculator state after the coarse-vs-reference call on both
components of the 1d/system step (1d/system/main.cpp:217). -/
def sys_err_state (env : SysEnv) (spaces refSln : ℕ) : ErrCalcState :=
  combined_components
    (env.calculate_errors_u (env.project_global spaces refSln) refSln)
    (env.calculate_errors_v (env.project_global spaces refSln) refSln)

/-- One step of the 1d/system adaptivity loop; the stop check of
lines 258-265 tests `err_est_rel_total < ERR_STOP` — the combined total
over both components — and `as` is incremented unconditionally
(line 268). -/
def sysStep (env : SysEnv) (s : SysState) : Except String SysStepOut :=
  match env.solve (env.create_ref_spaces s.spaces) with
  | none => Except.error "Newton iteration failed"
  | some refSln =>
    if reported_rel_error (sys_err_state env s.spaces refSln) < sys_ERR_STOP then
      Except.ok ⟨true, ⟨s.spaces, s.as + 1⟩,
        reported_rel_error (sys_err_state env s.spaces refSln)⟩
    else
      Except.ok ⟨(env.adapt s.spaces (sys_err_state env s.spaces refSln)).1,
        ⟨(env.adapt s.spaces (sys_err_state env s.spaces refSln)).2, s.as + 1⟩,
        reported_rel_error (sys_err_state env s.spaces refSln)⟩

/-- Claim C8: for the multi-component 1d/system loop the stop decision is
based on the combined total error across both components: when the
combined total is still at or above `ERR_STOP` and the `Adapt` processor
keeps refining, the loop does not stop, even though the first component's
own relative error is already below `ERR_STOP`. -/
theorem sys_stop_uses_combined_error (env : SysEnv) (s : SysState) (refSln : ℕ)
    (hs : env.solve (env.create_ref_spaces s.spaces) = some refSln)
    (_hu : reported_rel_error
        (env.calculate_errors_u (env.project_global s.spaces refSln) refSln) < sys_ERR_STOP)
    (hc : sys_ERR_STOP ≤ reported_rel_error (sys_err_state env s.spaces refSln))
    (ha : (env.adapt s.spaces (sys_err_state env s.spaces refSln)).1 = false) :
    sysStep env s = Except.ok ⟨false,
      ⟨(env.adapt s.spaces (sys_err_state env s.spaces refSln)).2, s.as + 1⟩,
      reported_rel_error (sys_err_state env s.spaces refSln)⟩ := by
  simp only [sysStep, hs]
  rw [if_neg (not_lt.mpr hc), ha]

/-- Concrete 1d/system environment: component u already has zero error,
component v still has 100 percent error, so the combined total is 50
percent. -/
def sysCexEnv : SysEnv where
  create_ref_spaces := fun sp => sp
  solve := fun _ => some 3
  project_global := fun _ _ => 0
  calculate_errors_u := fun _ _ => ⟨[0], [1]⟩
  calculate_errors_v := fun _ _ => ⟨[1], [1]⟩
  adapt := fun sp _ => (false, sp)

/-- Claim C8, witness: the combined-stop theorem applied to the concrete
environment in which component u is converged but the combined total is
50 percent. -/
theorem sys_stop_uses_combined_error_witness :
    sysStep sysCexEnv ⟨0, 1⟩ = Except.ok ⟨false, ⟨0, 2⟩, 50⟩ := by
  rw [sys_stop_uses_combined_error sysCexEnv ⟨0, 1⟩ 3 rfl
    (by norm_num [sysCexEnv, reported_rel_error, get_total_error_squared, sys_ERR_STOP])
    (by norm_num [sysCexEnv, sys_err_state, combined_components, reported_rel_error,
      get_total_error_squared, sys_ERR_STOP])
    rfl]
  norm_num [sysCexEnv, sys_err_state, combined_components, reported_rel_error,
    get_total_error_squared]

/-- `SPACE_ERR_TOL` of 2d-advanced/heat-transfer/wall-on-fire-adapt/
main.cpp (10). -/
def wof_SPACE_ERR_TOL : ℚ := 10

/-- Environment of the wall-on-fire spatial adaptivity loop
(2d-advanced/heat-transfer/wall-on-fire-adapt/main.cpp:222-354) with
`ADAPTIVE_TIME_STEP_ON == false` (the source default): the projection of
the previous-time solution onto the reference space, the Runge-Kutta
step, the coarse projection, the error calculation and the `Adapt`
processor. -/
structure WofEnv where
  create_ref_space : ℕ → ℕ
  project_to_ref : ℕ → ℕ → Option ℕ
  rk_time_step : ℕ → ℕ → Option ℕ
  project_global : ℕ → ℕ → ℕ
  calculate_errors : ℕ → ℕ → ErrCalcState
  adapt : ℕ → ErrCalcState → Bool × ℕ

/-- State of the wall-on-fire spatial adaptivity loop: the coarse space,
the previous-time solution `sln_prev_time`, the current reference
solution and the step counter. -/
structure WofState where
  space : ℕ
  sln_prev_time : ℕ
  ref_sln : ℕ
  as : ℕ
deriving DecidableEq

/-- One step of the wall-on-fire spatial adaptivity loop: the reference
space is built, `ogProjection.project_global(ref_space, sln_prev_time,
sln_prev_time)` (main.cpp:235-236) writes the projection back into
`sln_prev_time` itself, the Runge-Kutta step produces the reference
solution from the projected value, and the stop check of lines 345-353
tests `err_rel_space < SPACE_ERR_TOL`.  A projection or Runge-Kutta
failure aborts the program (`return -1`, lines 238-244 and 260-266). -/
def wofAdaptStep (env : WofEnv) (s : WofState) : Except String (Bool × WofState) :=
  match env.project_to_ref (env.create_ref_space s.space) s.sln_prev_time with
  | none => Except.error "Projection failed"
  | some slnPrev =>
    match env.rk_time_step (env.create_ref_space s.space) slnPrev with
    | none => Except.error "Runge-Kutta time step failed"
    | some refSln =>
      if reported_rel_error (env.calculate_errors (env.project_global s.space refSln) refSln)
          < wof_SPACE_ERR_TOL then
        Except.ok (true, ⟨s.space, slnPrev, refSln, s.as⟩)
      else
        Except.ok
          ((env.adapt s.space
              (env.calculate_errors (env.project_global s.space refSln) refSln)).1,
            ⟨(env.adapt s.space
                (env.calculate_errors (env.project_global s.space refSln) refSln)).2,
              slnPrev, refSln, s.as + 1⟩)

/-- Concrete wall-on-fire environment whose projection onto the
reference space alters the projected function (as a projection onto a
space that does not contain it exactly does), and whose spatial error
estimate stays at 100 percent. -/
def wofCexEnv : WofEnv where
  create_ref_space := fun sp => sp
  project_to_ref := fun _ f => some (f + 1)
  rk_time_step := fun _ p => some (p + 1)
  project_global := fun _ r => r
  calculate_errors := fun _ _ => ⟨[1], [1]⟩
  adapt := fun sp _ => (false, sp)

/-- Claim C9: one wall-on-fire spatial adaptivity step overwrites
`sln_prev_time` in place with its projection onto the step's reference
space — here the stored previous-time solution changes from 5 to 6
inside the loop — contradicting the code's own invariant comment
(main.cpp:216-217: `sln_prev_time must not be changed during spatial
adaptivity`). -/
theorem wof_sln_prev_time_modified :
    wofAdaptStep wofCexEnv ⟨0, 5, 0, 1⟩ = Except.ok (false, ⟨0, 6, 7, 2⟩) ∧
    (6 : ℕ) ≠ 5 := by
  constructor
  · norm_num [wofAdaptStep, wofCexEnv, reported_rel_error, get_total_error_squared,
      wof_SPACE_ERR_TOL]
  · norm_num

/-- `UNREF_FREQ` of wall-on-fire-adapt/main.cpp (1). -/
def wof_UNREF_FREQ : ℕ := 1

/-- `UNREF_METHOD` of wall-on-fire-adapt/main.cpp (3). -/
def wof_UNREF_METHOD : ℕ := 3

/-- `P_INIT` of wall-on-fire-adapt/main.cpp (1). -/
def wof_P_INIT : ℕ := 1

/-- Modelled from the spec: `Space::set_uniform_order` assigns the given
polynomial order to every element. -/
def set_uniform_order (orders : List ℕ) (p : ℕ) : List ℕ :=
  orders.map fun _ => p

/-- Modelled from the spec: `unrefine_all_mesh_elements` shaves one
refinement layer off — each pair of sibling children collapses back into
its parent element. -/
def unrefine_all_mesh_elements : List ℕ → List ℕ
  | [] => []
  | [p] => [p]
  | p :: _ :: rest => p :: unrefine_all_mesh_elements rest

/-- Modelled from the spec: `Space::adjust_element_order(-1, -1, P_INIT,
P_INIT)` decreases every element's order by one, floored at `P_INIT`. -/
def adjust_element_order (orders : List ℕ) (floor : ℕ) : List ℕ :=
  orders.map fun p => max floor (p - 1)

/-- The `UNREF_METHOD` switch of wall-on-fire-adapt/main.cpp:198-210:
method 1 resets the mesh to the base mesh with uniform order `P_INIT`,
method 2 unrefines one layer and resets orders to `P_INIT`, method 3
unrefines one layer and decreases orders by one; any other value throws
`Wrong global derefinement method.`. -/
def derefine_switch (method : ℕ) (basemesh orders : List ℕ) (p_init : ℕ) : Option (List ℕ) :=
  match method with
  | 1 => some (set_uniform_order basemesh p_init)
  | 2 => some (set_uniform_order (unrefine_all_mesh_elements orders) p_init)
  | 3 => some (adjust_element_order (unrefine_all_mesh_elements orders) p_init)
  | _ => none

/-- The periodic-global-derefinement prologue of a wall-on-fire time step
(main.cpp:195-214), executed before the spatial adaptivity loop:
derefinement runs exactly when `ts > 1 && ts % UNREF_FREQ == 0`. -/
def wof_timestep_prologue (basemesh : List ℕ) (ts : ℕ) (orders : List ℕ) : Option (List ℕ) :=
  if 1 < ts ∧ ts % wof_UNREF_FREQ = 0 then
    derefine_switch wof_UNREF_METHOD basemesh orders wof_P_INIT
  else
    some orders

/-- Claim C10, as amended: in the transient examples that run a spatial
adaptivity loop, the time-step prologue globally derefines the coarse
mesh exactly at time steps `ts > 1` with `ts % UNREF_FREQ == 0` (first
two conjuncts), the derefinement can decrease the DOF count across the
time-step boundary (third conjunct, concretely from 13 to 5 DOFs), while
within one adaptivity loop run applying refinements never decreases it
(fourth conjunct). -/
theorem transient_derefinement_schedule :
    (∀ basemesh ts orders, ¬(1 < ts ∧ ts % wof_UNREF_FREQ = 0) →
      wof_timestep_prologue basemesh ts orders = some orders) ∧
    (∀ basemesh ts orders, (1 < ts ∧ ts % wof_UNREF_FREQ = 0) →
      wof_timestep_prologue basemesh ts orders =
        some (adjust_element_order (unrefine_all_mesh_elements orders) wof_P_INIT)) ∧
    get_num_dofs_1d (adjust_element_order (unrefine_all_mesh_elements [3, 3, 3, 3]) wof_P_INIT) 0 <
      get_num_dofs_1d [3, 3, 3, 3] 0 ∧
    (∀ orders cands dirichlet, get_num_dofs_1d orders dirichlet ≤
      get_num_dofs_1d (apply_refinements orders cands) dirichlet) := by
  refine ⟨?_, ?_, ?_, ?_⟩
  · intro basemesh ts orders h
    rw [wof_timestep_prologue, if_neg h]
  · intro basemesh ts orders h
    rw [wof_timestep_prologue, if_pos h]
    rfl
  · norm_num [get_num_dofs_1d, adjust_element_order, unrefine_all_mesh_elements, wof_P_INIT]
  · intro orders cands dirichlet
    unfold get_num_dofs_1d
    have h := apply_refinements_sum_ge orders cands
    omega

/-- Claim C10, witness: the schedule theorem applied at concrete time
steps 1 (no derefinement) and 2 (derefinement by method 3). -/
theorem transient_derefinement_schedule_witness :
    wof_timestep_prologue [1] 1 [5, 5] = some [5, 5] ∧
    wof_timestep_prologue [1] 2 [5, 5] =
      some (adjust_element_order (unrefine_all_mesh_elements [5, 5]) wof_P_INIT) :=
  ⟨transient_derefinement_schedule.1 [1] 1 [5, 5] (by norm_num [wof_UNREF_FREQ]),
   transient_derefinement_schedule.2.1 [1] 2 [5, 5] (by norm_num [wof_UNREF_FREQ])⟩

/-- Environment of the navier-stokes/circular-obstacle time-stepping loop
(2d-advanced/navier-stokes/circular-obstacle/main.cpp:150-190): the
Newton solver on the fixed spaces, the stale solution vector
`newton.get_sln_vector()` kept when the caught exception is only
printed (lines 169-172), and the translation to solutions. -/
structure CircEnv where
  newton_solve : ℕ → ℕ → Option ℕ
  get_sln_vector : ℕ
  vector_to_solutions : ℕ → ℕ

/-- State of the circular-obstacle time loop: the mesh/spaces handle and
the previous-time solutions.  The loop body never touches the mesh. -/
structure CircState where
  mesh : ℕ
  prev_slns : ℕ
deriving DecidableEq

/-- One circular-obstacle time step: update the BC values, try the Newton
solve (a failure is caught and printed, and the stale vector is used),
then update the previous-time solutions.  No derefinement, no adaptivity,
no mesh operation occurs. -/
def circTimeStep (env : CircEnv) (s : CircState) : CircState :=
  ⟨s.mesh,
    env.vector_to_solutions
      (match env.newton_solve s.mesh s.prev_slns with
        | some v => v
        | none => env.get_sln_vector)⟩

/-- The circular-obstacle time-stepping loop over a given number of
steps. -/
def circRun (env : CircEnv) : ℕ → CircState → CircState
  | 0, s => s
  | n + 1, s => circRun env n (circTimeStep env s)

/-- Concrete circular-obstacle environment. -/
def circEnv0 : CircEnv where
  newton_solve := fun _ _ => some 1
  get_sln_vector := 0
  vector_to_solutions := fun v => v + 1

/-- Claim C10, counterexample: the circular-obstacle driver is a
transient example, yet across four time steps (covering `ts = 2, 3, 4`,
each a multiple of an `UNREF_FREQ` of 1 or 2 with `ts > 1`) its mesh is
never derefined — the mesh handle is unchanged by the whole run, because
the time loop contains no derefinement and no adaptivity at all. -/
theorem circ_no_derefinement :
    (circRun circEnv0 4 ⟨7, 0⟩).mesh = 7 := rfl
